import Mathlib

/-!
Shallow embedding of the NodeConductor Plus DigitalOcean extension and the
plans application, from:
  src/nodeconductor_plus/digitalocean/backend.py
  src/nodeconductor_plus/digitalocean/tasks.py
  src/nodeconductor_plus/plans/models.py
Vendor SDK outcomes, celery chain wiring and the host platform state guard
are represented explicitly; error raising is modelled with Except, and the
side effects of a task run (alerts, callbacks) are recorded in an event
trace.
-/

set_option linter.unusedVariables false

/-! Error taxonomy (backend.py). -/

/-- Raw exception of the python-digitalocean SDK, carrying its text message. -/
structure DataReadError where
  message : String
deriving DecidableEq, Repr

/-- Exception classes raised by the backend adapter (backend.py lines 20-29):
TokenScopeError and NotFoundError both specialise DigitalOceanBackendError. -/
inductive BackendError where
  | tokenScopeError (message : String)
  | notFoundError (message : String)
  | digitalOceanBackendError (message : String)
deriving DecidableEq, Repr

def BackendError.isTokenScope : BackendError → Bool
  | .tokenScopeError _ => true
  | _ => false

def accessDeniedMessage : String := "You do not have access for the attempted action."

def notFoundMessage : String := "The resource you were accessing could not be found."

/-- backend.py digitalocean_error_handler: convert a DigitalOcean exception to
a specific class based on its text message. -/
def digitalocean_error_handler (e : DataReadError) : BackendError :=
  if e.message = accessDeniedMessage then .tokenScopeError e.message
  else if e.message = notFoundMessage then .notFoundError e.message
  else .digitalOceanBackendError e.message

/-- Outcome of a backend method wrapped in digitalocean_error_handler: the raw
SDK outcome with any DataReadError converted; other classes pass unchanged. -/
def handleBackendCall {α : Type} (r : Except DataReadError α) : Except BackendError α :=
  match r with
  | .ok a => .ok a
  | .error e => .error (digitalocean_error_handler e)

/-- backend.py DigitalOceanBaseBackend.remove_ssh_key (lines 122-129): pull the
key; a NotFoundError from the pull is swallowed (no action needed), any other
error propagates, and on a successful pull the key is destroyed through the
handler. The Bool records whether the remote key was destroyed. -/
def remove_ssh_key (pullResult : Except BackendError Unit)
    (destroyResult : Except DataReadError Unit) : Except BackendError Bool :=
  match pullResult with
  | .error (.notFoundError _) => .ok false
  | .error e => .error e
  | .ok _ =>
    match handleBackendCall destroyResult with
    | .ok _ => .ok true
    | .error e => .error e

/-! Polling primitive (tasks.py lines 105-111). -/

/-- Retry budget of wait_for_action_complete: shared_task max_retries. -/
def max_retries : Nat := 300

/-- Fixed inter-attempt delay in seconds: shared_task default_retry_delay. -/
def default_retry_delay : Nat := 3

/-- Body of wait_for_action_complete: fetch the action and report whether its
status is completed. -/
def wait_for_action_complete_body (status : String) : Bool := status = "completed"

inductive PollResult where
  | success
  | fatal
deriving DecidableEq, Repr

/-- Modelled from the spec: the host platform decorator retry_if_false and the
celery retry loop are absent from src/; per the spec the task is re-invoked at
the fixed delay while the body reports false and fails fatally once the
attempt budget is exhausted. check gives the status seen at each attempt;
fuel is the number of attempts still allowed. -/
def pollFrom (check : Nat → String) : Nat → Nat → PollResult
  | _, 0 => PollResult.fatal
  | i, fuel + 1 =>
    if wait_for_action_complete_body (check i) then PollResult.success
    else pollFrom check (i + 1) fuel

/-- tasks.py wait_for_action_complete: the initial attempt plus max_retries
retries, each attempt running the task body on the status it observes. -/
def wait_for_action_complete (check : Nat → String) : PollResult :=
  pollFrom check 0 (max_retries + 1)

/-- Number of status checks actually performed by the poller. -/
def pollAttemptsFrom (check : Nat → String) : Nat → Nat → Nat
  | _, 0 => 0
  | i, fuel + 1 =>
    if wait_for_action_complete_body (check i) then 1
    else 1 + pollAttemptsFrom check (i + 1) fuel

def pollAttempts (check : Nat → String) : Nat :=
  pollAttemptsFrom check 0 (max_retries + 1)

/-! Droplet lifecycle states and the transition guard. -/

/-- Modelled from the spec: the host platform resource state machine (the
Droplet model inherits it from nodeconductor.structure, absent from src/).
States named after the transition methods used in tasks.py; the guard only
moves the lifecycle field along permitted edges. -/
inductive DropletState where
  | provisioning_scheduled
  | provisioning
  | online
  | offline
  | starting
  | stopping
  | restarting
  | resizing
  | deleting
  | erred
deriving DecidableEq, Repr, Fintype

/-- A droplet is mid-transition when an operation is in flight on it. -/
def midTransition : DropletState → Bool
  | .provisioning | .starting | .stopping | .restarting | .resizing | .deleting => true
  | _ => false

/-- Modelled from the spec: each begin transition is permitted from its listed
source states only; from any other state the guard rejects (the task raises
TransitionNotAllowed) and the state is left unchanged. -/
def begin_provisioning (s : DropletState) : Option DropletState :=
  if s == .provisioning_scheduled then some .provisioning else none

def begin_starting (s : DropletState) : Option DropletState :=
  if s == .offline then some .starting else none

def begin_stopping (s : DropletState) : Option DropletState :=
  if s == .online then some .stopping else none

def begin_restarting (s : DropletState) : Option DropletState :=
  if s == .online then some .restarting else none

def begin_resizing (s : DropletState) : Option DropletState :=
  if s == .offline then some .resizing else none

def begin_deleting (s : DropletState) : Option DropletState :=
  if s == .online || s == .offline || s == .erred then some .deleting else none

def set_online (s : DropletState) : Option DropletState :=
  if s == .provisioning || s == .starting || s == .restarting then some .online else none

def set_offline (s : DropletState) : Option DropletState :=
  if s == .stopping then some .offline else none

def set_resized (s : DropletState) : Option DropletState :=
  if s == .resizing then some .offline else none

/-- set_erred is declared from source any-state, so it always fires. -/
def set_erred (s : DropletState) : Option DropletState :=
  some .erred

/-! Task chains (tasks.py lines 39-102). -/

inductive LifecycleOp where
  | provisionOp
  | startOp
  | stopOp
  | restartOp
  | resizeOp
deriving DecidableEq, Repr, Fintype

/-- The begin task of each lifecycle operation applies this transition before
calling the backend (the transition decorator on provision_droplet,
begin_starting, begin_stopping, begin_restarting, begin_resizing). -/
def beginTransitionFor : LifecycleOp → DropletState → Option DropletState
  | .provisionOp => begin_provisioning
  | .startOp => begin_starting
  | .stopOp => begin_stopping
  | .restartOp => begin_restarting
  | .resizeOp => begin_resizing

/-- In-progress state each begin transition moves the droplet to. -/
def inProgressState : LifecycleOp → DropletState
  | .provisionOp => .provisioning
  | .startOp => .starting
  | .stopOp => .stopping
  | .restartOp => .restarting
  | .resizeOp => .resizing

/-- Callback tasks a chain can link to (tasks.py lines 172-208). -/
inductive Callback where
  | set_online
  | set_offline
  | set_resized
  | set_erred
deriving DecidableEq, Repr, Fintype

/-- Transition applied by each callback task (its transition decorator). -/
def applyCallback : Callback → DropletState → Option DropletState
  | .set_online => set_online
  | .set_offline => set_offline
  | .set_resized => set_resized
  | .set_erred => set_erred

/-- One lifecycle chain as wired in tasks.py: the begin task, the success
callback passed as link and the error callback passed as link_error. -/
structure ChainSpec where
  op : LifecycleOp
  link : Callback
  link_error : Callback
deriving DecidableEq, Repr

/-- tasks.py provision (lines 39-46). -/
def provision : ChainSpec := ⟨.provisionOp, .set_online, .set_erred⟩

/-- tasks.py start (lines 65-72). -/
def start : ChainSpec := ⟨.startOp, .set_online, .set_erred⟩

/-- tasks.py stop (lines 75-82). -/
def stop : ChainSpec := ⟨.stopOp, .set_offline, .set_erred⟩

/-- tasks.py restart (lines 85-92). -/
def restart : ChainSpec := ⟨.restartOp, .set_online, .set_erred⟩

/-- tasks.py resize (lines 95-102). -/
def resize : ChainSpec := ⟨.resizeOp, .set_resized, .set_erred⟩

def chainFor : LifecycleOp → ChainSpec
  | .provisionOp => provision
  | .startOp => start
  | .stopOp => stop
  | .restartOp => restart
  | .resizeOp => resize

/-- Final lifecycle state of a chain whose success callback fired. -/
def successState : LifecycleOp → DropletState
  | .provisionOp => .online
  | .startOp => .online
  | .stopOp => .offline
  | .restartOp => .online
  | .resizeOp => .offline

/-! save_token_scope and chain execution. -/

inductive AlertAction where
  | openAlert
  | closeAlert
deriving DecidableEq, Repr

/-- tasks.py save_token_scope (lines 18-36): run the wrapped call; on
TokenScopeError open the alert on the service project link and re-raise; on
success close the alert and return; any other exception passes untouched. -/
def save_token_scope {α : Type} (result : Except BackendError α) :
    Except BackendError α × Option AlertAction :=
  match result with
  | .ok a => (.ok a, some .closeAlert)
  | .error e =>
    if e.isTokenScope then (.error e, some .openAlert) else (.error e, none)

/-- Behaviour of the vendor side during one chain run: the outcome of the
begin call (an action id on success) and the status each poll of a given
action observes. -/
structure BackendEnv where
  beginResult : Except BackendError Nat
  actionStatus : Nat → Nat → String

/-- Observable droplet context of a chain run. -/
structure TaskWorld where
  state : DropletState
  alertOpen : Bool
deriving DecidableEq, Repr

/-- Events recorded while a chain runs, in order. -/
inductive Event where
  | guardRejected
  | backendCalled (op : LifecycleOp)
  | alertOpened
  | alertClosed
  | pollFinished (r : PollResult)
  | callbackFired (c : Callback)
  | callbackRejected (c : Callback)
deriving DecidableEq, Repr

def applyAlert (w : TaskWorld) : Option AlertAction → TaskWorld × List Event
  | none => (w, [])
  | some .openAlert => ({ w with alertOpen := true }, [.alertOpened])
  | some .closeAlert => ({ w with alertOpen := false }, [.alertClosed])

/-- Fire a linked callback task: its transition decorator commits the new
lifecycle state before the task body returns. -/
def fireCallback (c : Callback) (w : TaskWorld) : TaskWorld × List Event :=
  match applyCallback c w.state with
  | some s => ({ w with state := s }, [.callbackFired c])
  | none => (w, [.callbackRejected c])

/-- Execution of one lifecycle chain as wired by apply_async: the begin task
first applies its guard (raising without touching the backend if rejected, so
link_error fires); then the backend call runs under save_token_scope; on an
error the chain aborts and link_error fires; on success the returned action id
is polled, and the poll outcome decides between link and link_error. -/
def runChain (c : ChainSpec) (b : BackendEnv) (w : TaskWorld) : TaskWorld × List Event :=
  match beginTransitionFor c.op w.state with
  | none =>
    let r := fireCallback c.link_error w
    (r.1, .guardRejected :: r.2)
  | some s1 =>
    let w1 : TaskWorld := { w with state := s1 }
    match save_token_scope b.beginResult with
    | (.error _, act) =>
      let r1 := applyAlert w1 act
      let r2 := fireCallback c.link_error r1.1
      (r2.1, .backendCalled c.op :: (r1.2 ++ r2.2))
    | (.ok actionId, act) =>
      let r1 := applyAlert w1 act
      match wait_for_action_complete (b.actionStatus actionId) with
      | .success =>
        let r2 := fireCallback c.link r1.1
        (r2.1, .backendCalled c.op :: (r1.2 ++ [.pollFinished .success] ++ r2.2))
      | .fatal =>
        let r2 := fireCallback c.link_error r1.1
        (r2.1, .backendCalled c.op :: (r1.2 ++ [.pollFinished .fatal] ++ r2.2))

/-- Callbacks that fired during a run, in order. -/
def firedCallbacks (evs : List Event) : List Callback :=
  evs.filterMap (fun e =>
    match e with
    | .callbackFired c => some c
    | _ => none)

/-! destroy task (tasks.py lines 49-62). -/

/-- Local droplet record as the destroy task sees it. -/
structure DropletRecord where
  state : DropletState
  existsInDb : Bool
deriving DecidableEq, Repr

/-- tasks.py destroy body: call backend destroy_droplet; on any exception set
the droplet erred and re-raise, keeping the record; otherwise delete the local
record. -/
def destroy (destroyResult : Except BackendError Unit) (d : DropletRecord) :
    Except BackendError Unit × DropletRecord :=
  match destroyResult with
  | .error e => (.error e, { d with state := .erred })
  | .ok _ => (.ok (), { d with existsInDb := false })

/-! pull_droplets (backend.py lines 231-264). -/

structure BackendDroplet where
  id : String
  status : String
deriving DecidableEq, Repr

/-- Resource states used by pull_droplets (Droplet.States of the host
platform structure models). -/
inductive ResourceState where
  | CREATING
  | OK
  | ERRED
deriving DecidableEq, Repr

structure NCDroplet where
  backend_id : String
  settingsId : Nat
  state : ResourceState
  runtime_state : String
deriving DecidableEq, Repr

/-- backend.py _get_droplet_states (lines 253-264): vendor status to platform
(state, runtime_state), defaulting to (ERRED, error). -/
def _get_droplet_states (status : String) : ResourceState × String :=
  if status = "new" then (.CREATING, "provisioning")
  else if status = "active" then (.OK, "online")
  else if status = "off" then (.OK, "offline")
  else if status = "archive" then (.OK, "archive")
  else (.ERRED, "error")

/-- Per-droplet effect of pull_droplets: droplets of this service settings are
matched against the vendor list by backend id (the source keys both sides by
backend id); a droplet absent from the vendor list is set erred, a matching
one gets the mapped states; droplets of other settings are untouched. -/
def updateDroplet (sid : Nat) (bds : List BackendDroplet) (d : NCDroplet) : NCDroplet :=
  if d.settingsId = sid then
    match bds.find? (fun b => b.id == d.backend_id) with
    | none => { d with state := .ERRED }
    | some b =>
      let sr := _get_droplet_states b.status
      { d with state := sr.1, runtime_state := sr.2 }
  else d

/-- backend.py pull_droplets (lines 231-251) over the local droplet table. -/
def pull_droplets (sid : Nat) (bds : List BackendDroplet) (ncs : List NCDroplet) :
    List NCDroplet :=
  ncs.map (updateDroplet sid bds)

/-! Plans application (plans/models.py). -/

structure Plan where
  pk : Nat
  name : String
  price : Int
  is_default : Bool
deriving DecidableEq, Repr

inductive ValidationError where
  | cannotCreateTwoDefaultPlans
deriving DecidableEq, Repr

/-- plans/models.py Plan.clean (lines 29-31): reject a default plan when some
other plan (a different pk) is already default. db is the plan table. -/
def Plan.clean (db : List Plan) (p : Plan) : Except ValidationError Unit :=
  if p.is_default && db.any (fun q => q.is_default && q.pk != p.pk) then
    .error .cannotCreateTwoDefaultPlans
  else .ok ()

/-- Saving a validated plan: replace the row with the same pk, or insert. -/
def savePlan (db : List Plan) (p : Plan) : List Plan :=
  db.filter (fun q => q.pk != p.pk) ++ [p]

/-- At most one plan of the table is marked default. -/
def atMostOneDefaultPlan (db : List Plan) : Prop :=
  ∀ q ∈ db, ∀ r ∈ db, q.is_default = true → r.is_default = true → q.pk = r.pk

instance (db : List Plan) : Decidable (atMostOneDefaultPlan db) := by
  unfold atMostOneDefaultPlan
  infer_instance

/-! Agreement state machine (plans/models.py lines 48-110). -/

inductive AgreementState where
  | created
  | pending
  | approved
  | active
  | cancelled
  | erred
deriving DecidableEq, Repr, Fintype

/-- django_fsm transition: move to the target when the current state is a
declared source, otherwise raise TransitionNotAllowed (none) leaving the
state unchanged. -/
def fsmTransition (source : AgreementState → Bool) (target : AgreementState)
    (s : AgreementState) : Option AgreementState :=
  if source s then some target else none

/-- Agreement.set_pending: source CREATED, target PENDING. -/
def Agreement.set_pending : AgreementState → Option AgreementState :=
  fsmTransition (fun s => s == .created) .pending

/-- Agreement.set_approved: source PENDING, target APPROVED. -/
def Agreement.set_approved : AgreementState → Option AgreementState :=
  fsmTransition (fun s => s == .pending) .approved

/-- Agreement.set_active: source APPROVED, target ACTIVE. -/
def Agreement.set_active : AgreementState → Option AgreementState :=
  fsmTransition (fun s => s == .approved) .active

/-- Agreement.set_cancelled: source PENDING or ACTIVE, target CANCELLED. -/
def Agreement.set_cancelled : AgreementState → Option AgreementState :=
  fsmTransition (fun s => s == .pending || s == .active) .cancelled

/-- Agreement.set_erred: source any, target ERRED. -/
def Agreement.set_erred : AgreementState → Option AgreementState :=
  fsmTransition (fun s => true) .erred

/-- One step of the Agreement state field: some transition method moves s to
t. -/
def agreementStep (s t : AgreementState) : Prop :=
  Agreement.set_pending s = some t ∨ Agreement.set_approved s = some t ∨
  Agreement.set_active s = some t ∨ Agreement.set_cancelled s = some t ∨
  Agreement.set_erred s = some t

instance (s t : AgreementState) : Decidable (agreementStep s t) := by
  unfold agreementStep
  infer_instance

/-- The edges the claim permits for the Agreement state field. -/
def permittedEdge : AgreementState → AgreementState → Bool
  | .created, .pending => true
  | .pending, .approved => true
  | .approved, .active => true
  | .pending, .cancelled => true
  | .active, .cancelled => true
  | _, .erred => true
  | _, _ => false

/-! Concrete inputs used by witnesses. -/

/-- Backend environment whose begin call succeeds and whose first poll reports
completed. -/
def envOk : BackendEnv := ⟨.ok 7, fun _ _ => "completed"⟩

/-- Backend environment whose begin call fails with TokenScopeError. -/
def envTokenScope : BackendEnv :=
  ⟨.error (.tokenScopeError accessDeniedMessage), fun _ _ => "completed"⟩

/-- Status sequence that reports failed first, then completed. -/
def failThenComplete : Nat → String :=
  fun i => if i = 0 then "failed" else "completed"

/-! Poller lemmas. -/

theorem pollFrom_success_iff (check : Nat → String) :
    ∀ (fuel i : Nat), pollFrom check i fuel = PollResult.success ↔
      ∃ j, j < fuel ∧ check (i + j) = "completed" := by
  intro fuel
  induction fuel with
  | zero =>
    intro i
    simp [pollFrom]
  | succ n ih =>
    intro i
    by_cases h : check i = "completed"
    · have hpoll : pollFrom check i (n + 1) = PollResult.success := by
        simp [pollFrom, wait_for_action_complete_body, h]
      rw [hpoll]
      constructor
      · intro _
        exact ⟨0, Nat.succ_pos n, by simpa using h⟩
      · intro _
        rfl
    · have hpoll : pollFrom check i (n + 1) = pollFrom check (i + 1) n := by
        simp [pollFrom, wait_for_action_complete_body, h]
      rw [hpoll, ih (i + 1)]
      constructor
      · rintro ⟨j, hj, hc⟩
        refine ⟨j + 1, by omega, ?_⟩
        have he : i + (j + 1) = i + 1 + j := by omega
        rw [he]
        exact hc
      · rintro ⟨j, hj, hc⟩
        cases j with
        | zero =>
          exact absurd (by simpa using hc) h
        | succ k =>
          refine ⟨k, by omega, ?_⟩
          have he : i + 1 + k = i + (k + 1) := by omega
          rw [he]
          exact hc

theorem pollResult_eq_fatal (r : PollResult) (h : r ≠ PollResult.success) :
    r = PollResult.fatal := by
  cases r
  · exact absurd rfl h
  · rfl

theorem pollFrom_fatal_of_not_success (check : Nat → String) (fuel i : Nat)
    (h : pollFrom check i fuel ≠ PollResult.success) :
    pollFrom check i fuel = PollResult.fatal :=
  pollResult_eq_fatal _ h

theorem pollAttemptsFrom_le (check : Nat → String) :
    ∀ (fuel i : Nat), pollAttemptsFrom check i fuel ≤ fuel := by
  intro fuel
  induction fuel with
  | zero =>
    intro i
    simp [pollAttemptsFrom]
  | succ n ih =>
    intro i
    simp only [pollAttemptsFrom]
    by_cases h : wait_for_action_complete_body (check i) = true
    · simp [h]
    · simp only [Bool.not_eq_true] at h
      simp only [h, Bool.false_eq_true, if_false]
      have := ih (i + 1)
      omega

/-- Claim C1, counterexample: a status-check that reports failed on the first
attempt and completed on the second makes wait_for_action_complete terminate
successfully, so a failed report does not make the poller stop with a fatal
error as the claim states. -/
theorem C1_counterexample_failed_then_completed :
    failThenComplete 0 = "failed" ∧
    wait_for_action_complete failThenComplete = PollResult.success := by
  constructor
  · rfl
  · rfl

/-- Claim C1, amended: the poller terminates successfully exactly when some
check within the attempt budget (the initial attempt plus max_retries retries
at the fixed delay) reports completed; a failed report does not stop the
polling; it terminates with a fatal error exactly when the budget is exhausted
with no check reporting completed. -/
theorem C1_amended_poll_characterization (check : Nat → String) :
    (wait_for_action_complete check = PollResult.success ↔
      ∃ i, i ≤ max_retries ∧ check i = "completed") ∧
    (wait_for_action_complete check = PollResult.fatal ↔
      ∀ i, i ≤ max_retries → check i ≠ "completed") := by
  have hs := pollFrom_success_iff check (max_retries + 1) 0
  simp only [Nat.zero_add, Nat.lt_succ_iff] at hs
  constructor
  · rw [wait_for_action_complete]
    exact hs
  · constructor
    · intro hf
      intro i hi hc
      have : pollFrom check 0 (max_retries + 1) = PollResult.success :=
        hs.mpr ⟨i, hi, hc⟩
      rw [wait_for_action_complete] at hf
      rw [this] at hf
      exact PollResult.noConfusion hf
    · intro hnone
      rw [wait_for_action_complete]
      apply pollFrom_fatal_of_not_success
      intro hsucc
      rcases hs.mp hsucc with ⟨i, hi, hc⟩
      exact hnone i hi hc

/-- Claim C7: the Agreement state field moves exactly along the edges
created to pending, pending to approved, approved to active, pending to
cancelled, active to cancelled and any state to erred; each transition method
returns none (TransitionNotAllowed, state left unchanged) exactly from the
source states outside its permitted edge, and set_erred always fires. -/
theorem C7_agreement_edges :
    (∀ s t, agreementStep s t ↔ permittedEdge s t = true) ∧
    (∀ s, Agreement.set_pending s = none ↔ permittedEdge s .pending = false) ∧
    (∀ s, Agreement.set_approved s = none ↔ permittedEdge s .approved = false) ∧
    (∀ s, Agreement.set_active s = none ↔ permittedEdge s .active = false) ∧
    (∀ s, Agreement.set_cancelled s = none ↔ permittedEdge s .cancelled = false) ∧
    (∀ s, Agreement.set_erred s = some .erred) := by
  decide

/-- Claim C10: validating a plan with is_default set raises ValidationError
exactly when another plan (a different pk) with is_default already exists, and
a validated save preserves the invariant that at most one plan is default. -/
theorem C10_default_plan_unique (db : List Plan) (p : Plan) :
    ((Plan.clean db p = .error .cannotCreateTwoDefaultPlans) ↔
      (p.is_default = true ∧ ∃ q ∈ db, q.is_default = true ∧ q.pk ≠ p.pk)) ∧
    (atMostOneDefaultPlan db → Plan.clean db p = .ok () →
      atMostOneDefaultPlan (savePlan db p)) := by
  have hiff : (Plan.clean db p = .error .cannotCreateTwoDefaultPlans) ↔
      (p.is_default = true ∧ ∃ q ∈ db, q.is_default = true ∧ q.pk ≠ p.pk) := by
    rw [Plan.clean]
    by_cases hc : (p.is_default && db.any (fun q => q.is_default && q.pk != p.pk)) = true
    · rw [if_pos hc]
      simp only [true_iff]
      simpa [List.any_eq_true, Bool.and_eq_true, bne_iff_ne] using hc
    · rw [if_neg hc]
      constructor
      · intro h
        exact Except.noConfusion h
      · intro h
        exact absurd (by simpa [List.any_eq_true, Bool.and_eq_true, bne_iff_ne] using h) hc
  refine ⟨hiff, ?_⟩
  intro ham hok
  have hno : ¬(p.is_default = true ∧ ∃ q ∈ db, q.is_default = true ∧ q.pk ≠ p.pk) := by
    intro h
    have := hiff.mpr h
    rw [hok] at this
    exact Except.noConfusion this
  intro q hq r hr hqd hrd
  simp only [savePlan, List.mem_append, List.mem_filter, List.mem_singleton] at hq hr
  rcases hq with ⟨hqdb, hqpk⟩ | hqp
  · rcases hr with ⟨hrdb, hrpk⟩ | hrp
    · exact ham q hqdb r hrdb hqd hrd
    · subst hrp
      exfalso
      exact hno ⟨hrd, q, hqdb, hqd, by simpa [bne_iff_ne] using hqpk⟩
  · subst hqp
    rcases hr with ⟨hrdb, hrpk⟩ | hrp
    · exfalso
      exact hno ⟨hqd, r, hrdb, hrd, by simpa [bne_iff_ne] using hrpk⟩
    · rw [hrp]

def planBasic : Plan := ⟨1, "basic", 10, true⟩

def planPro : Plan := ⟨2, "pro", 20, false⟩

/-- Witness for claim C10 at a concrete plan table. -/
theorem C10_default_plan_unique_witness :
    atMostOneDefaultPlan (savePlan [planBasic] planPro) :=
  (C10_default_plan_unique [planBasic] planPro).2 (by decide) rfl

/-- Claim C5: save_token_scope re-raises or returns the wrapped outcome
unchanged, records an alert opening exactly when the wrapped call raised
TokenScopeError, an alert closing exactly when it returned successfully, and
no alert change on any other error. -/
theorem C5_token_scope_alert {α : Type} (r : Except BackendError α) :
    ((save_token_scope r).1 = r) ∧
    ((save_token_scope r).2 = some AlertAction.openAlert ↔
      ∃ m, r = .error (.tokenScopeError m)) ∧
    ((save_token_scope r).2 = some AlertAction.closeAlert ↔ ∃ a, r = .ok a) ∧
    (∀ e, r = .error e → e.isTokenScope = false → (save_token_scope r).2 = none) := by
  cases r with
  | ok a =>
    refine ⟨rfl, ?_, ?_, ?_⟩
    · simp [save_token_scope]
    · simp [save_token_scope]
    · intro e he
      exact absurd he (by simp)
  | error e =>
    cases e with
    | tokenScopeError m =>
      refine ⟨rfl, ?_, ?_, ?_⟩
      · simp [save_token_scope, BackendError.isTokenScope]
      · simp [save_token_scope, BackendError.isTokenScope]
      · intro e' he' ht
        rw [show e' = BackendError.tokenScopeError m by
          exact (Except.error.injEq _ _).mp he'.symm] at ht
        simp [BackendError.isTokenScope] at ht
    | notFoundError m =>
      refine ⟨rfl, ?_, ?_, ?_⟩
      · simp [save_token_scope, BackendError.isTokenScope]
      · simp [save_token_scope, BackendError.isTokenScope]
      · intro e' he' ht
        simp [save_token_scope, BackendError.isTokenScope]
    | digitalOceanBackendError m =>
      refine ⟨rfl, ?_, ?_, ?_⟩
      · simp [save_token_scope, BackendError.isTokenScope]
      · simp [save_token_scope, BackendError.isTokenScope]
      · intro e' he' ht
        simp [save_token_scope, BackendError.isTokenScope]

/-- Witness for claim C5: a generic backend error changes no alert. -/
theorem C5_token_scope_alert_witness :
    (save_token_scope (Except.error (BackendError.digitalOceanBackendError "boom") :
      Except BackendError Nat)).2 = none :=
  (C5_token_scope_alert _).2.2.2 _ rfl rfl

/-- Claim C9: the destroy task deletes the local droplet record exactly when
the vendor destroy call succeeds; on any exception the droplet is set erred,
the exception is re-raised and the local record is retained. -/
theorem C9_destroy (r : Except BackendError Unit) (d : DropletRecord)
    (hd : d.existsInDb = true) :
    (((destroy r d).2.existsInDb = false) ↔ r = .ok ()) ∧
    (∀ e, r = .error e →
      (destroy r d).1 = .error e ∧ (destroy r d).2.state = .erred ∧
      (destroy r d).2.existsInDb = true) := by
  cases r with
  | ok a =>
    cases a
    refine ⟨by simp [destroy], ?_⟩
    intro e he
    exact Except.noConfusion he
  | error e =>
    refine ⟨?_, ?_⟩
    · simp [destroy, hd]
    · intro e' he'
      rw [show e' = e by exact (Except.error.injEq _ _).mp he'.symm]
      exact ⟨rfl, rfl, hd⟩

/-- Witness for claim C9: a failing vendor destroy keeps the record. -/
theorem C9_destroy_witness :
    (destroy (.error (.digitalOceanBackendError "boom")) ⟨.online, true⟩).2.existsInDb
      = true :=
  ((C9_destroy (.error (.digitalOceanBackendError "boom")) ⟨.online, true⟩ rfl).2
    _ rfl).2.2

/-! Chain execution lemmas. -/

theorem chainFor_op : ∀ op, (chainFor op).op = op := by
  decide

theorem chainFor_link_error : ∀ op, (chainFor op).link_error = Callback.set_erred := by
  decide

theorem beginTransitionFor_some :
    ∀ (op : LifecycleOp) (s t : DropletState),
      beginTransitionFor op s = some t → t = inProgressState op := by
  decide

theorem applyCallback_link_inProgress :
    ∀ op, applyCallback (chainFor op).link (inProgressState op) = some (successState op) := by
  decide

theorem midTransition_rejects :
    ∀ (op : LifecycleOp) (s : DropletState), midTransition s = true →
      beginTransitionFor op s = none := by
  decide

theorem runChain_guard_rejected (c : ChainSpec) (b : BackendEnv) (w : TaskWorld)
    (hg : beginTransitionFor c.op w.state = none)
    (he : c.link_error = Callback.set_erred) :
    runChain c b w =
      ({ w with state := .erred }, [.guardRejected, .callbackFired .set_erred]) := by
  simp only [runChain]
  rw [hg, he]
  simp [fireCallback, applyCallback, set_erred]

theorem runChain_token_scope (c : ChainSpec) (b : BackendEnv) (w : TaskWorld)
    (s1 : DropletState) (m : String)
    (hg : beginTransitionFor c.op w.state = some s1)
    (hr : b.beginResult = .error (.tokenScopeError m))
    (he : c.link_error = Callback.set_erred) :
    runChain c b w =
      (⟨.erred, true⟩, [.backendCalled c.op, .alertOpened, .callbackFired .set_erred]) := by
  simp only [runChain]
  rw [hg, hr, he]
  simp [save_token_scope, BackendError.isTokenScope, applyAlert, fireCallback,
    applyCallback, set_erred]

theorem runChain_backend_error (c : ChainSpec) (b : BackendEnv) (w : TaskWorld)
    (s1 : DropletState) (e : BackendError)
    (hg : beginTransitionFor c.op w.state = some s1)
    (hr : b.beginResult = .error e)
    (ht : e.isTokenScope = false)
    (he : c.link_error = Callback.set_erred) :
    runChain c b w =
      ({ w with state := .erred }, [.backendCalled c.op, .callbackFired .set_erred]) := by
  simp only [runChain]
  rw [hg, hr, he]
  simp [save_token_scope, ht, applyAlert, fireCallback, applyCallback, set_erred]

theorem runChain_poll_fatal (c : ChainSpec) (b : BackendEnv) (w : TaskWorld)
    (s1 : DropletState) (actionId : Nat)
    (hg : beginTransitionFor c.op w.state = some s1)
    (hr : b.beginResult = .ok actionId)
    (hp : wait_for_action_complete (b.actionStatus actionId) = PollResult.fatal)
    (he : c.link_error = Callback.set_erred) :
    runChain c b w =
      (⟨.erred, false⟩,
       [.backendCalled c.op, .alertClosed, .pollFinished .fatal,
        .callbackFired .set_erred]) := by
  simp only [runChain]
  rw [hg, hr, he]
  simp [save_token_scope, applyAlert, hp, fireCallback, applyCallback, set_erred]

theorem runChain_poll_success (c : ChainSpec) (b : BackendEnv) (w : TaskWorld)
    (s1 s2 : DropletState) (actionId : Nat)
    (hg : beginTransitionFor c.op w.state = some s1)
    (hr : b.beginResult = .ok actionId)
    (hp : wait_for_action_complete (b.actionStatus actionId) = PollResult.success)
    (hl : applyCallback c.link s1 = some s2) :
    runChain c b w =
      (⟨s2, false⟩,
       [.backendCalled c.op, .alertClosed, .pollFinished .success,
        .callbackFired c.link]) := by
  simp only [runChain]
  rw [hg, hr]
  simp [save_token_scope, applyAlert, hp, fireCallback, hl]

/-- Claim C2: every lifecycle operation chain fires exactly one terminal
callback, either the success callback or set_erred, never both, and the
droplet lifecycle state reflects the outcome once the callback has run. -/
theorem C2_exactly_one_callback (op : LifecycleOp) (b : BackendEnv) (w : TaskWorld) :
    (firedCallbacks (runChain (chainFor op) b w).2 = [Callback.set_erred] ∧
      (runChain (chainFor op) b w).1.state = .erred) ∨
    (firedCallbacks (runChain (chainFor op) b w).2 = [(chainFor op).link] ∧
      (runChain (chainFor op) b w).1.state = successState op) := by
  cases hg : beginTransitionFor (chainFor op).op w.state with
  | none =>
    left
    rw [runChain_guard_rejected _ b w hg (chainFor_link_error op)]
    simp [firedCallbacks]
  | some s1 =>
    cases hr : b.beginResult with
    | error e =>
      cases hte : e.isTokenScope with
      | true =>
        obtain ⟨m, rfl⟩ : ∃ m, e = .tokenScopeError m := by
          cases e with
          | tokenScopeError m => exact ⟨m, rfl⟩
          | notFoundError m => simp [BackendError.isTokenScope] at hte
          | digitalOceanBackendError m => simp [BackendError.isTokenScope] at hte
        left
        rw [runChain_token_scope _ b w s1 m hg hr (chainFor_link_error op)]
        simp [firedCallbacks]
      | false =>
        left
        rw [runChain_backend_error _ b w s1 e hg hr hte (chainFor_link_error op)]
        simp [firedCallbacks]
    | ok actionId =>
      cases hp : wait_for_action_complete (b.actionStatus actionId) with
      | fatal =>
        left
        rw [runChain_poll_fatal _ b w s1 actionId hg hr hp (chainFor_link_error op)]
        simp [firedCallbacks]
      | success =>
        right
        have hs1 : s1 = inProgressState op := by
          have := beginTransitionFor_some op w.state s1
          rw [chainFor_op] at hg
          exact this hg
        subst hs1
        rw [runChain_poll_success _ b w _ (successState op) actionId hg hr hp
          (applyCallback_link_inProgress op)]
        simp [firedCallbacks]

/-- Claim C4: a lifecycle operation requested on a droplet that is already
mid-transition is rejected by the transition guard, the begin task raising
without performing the backend call, so operations are never queued or
interleaved. -/
theorem C4_midtransition_rejected (op : LifecycleOp) (b : BackendEnv) (w : TaskWorld)
    (hm : midTransition w.state = true) :
    beginTransitionFor (chainFor op).op w.state = none ∧
    (runChain (chainFor op) b w).2 = [.guardRejected, .callbackFired .set_erred] := by
  have hg : beginTransitionFor (chainFor op).op w.state = none := by
    rw [chainFor_op]
    exact midTransition_rejects op w.state hm
  refine ⟨hg, ?_⟩
  rw [runChain_guard_rejected _ b w hg (chainFor_link_error op)]

/-- Witness for claim C4: starting a droplet that is stopping is rejected. -/
theorem C4_midtransition_rejected_witness :
    beginTransitionFor (chainFor .startOp).op DropletState.stopping = none ∧
    (runChain (chainFor .startOp) envOk ⟨.stopping, false⟩).2 =
      [.guardRejected, .callbackFired .set_erred] := by
  have h := C4_midtransition_rejected .startOp envOk ⟨.stopping, false⟩ rfl
  exact h

/-- Claim C6: each lifecycle chain requests the change through the backend
(obtaining an action id), then polls that action until it settles, then
commits the final state; start, restart and provision link success to
set_online, stop to set_offline, resize to set_resized, and every chain links
error to set_erred. -/
theorem C6_chain_order_and_linking :
    ((chainFor .provisionOp).link = Callback.set_online ∧
     (chainFor .startOp).link = Callback.set_online ∧
     (chainFor .restartOp).link = Callback.set_online ∧
     (chainFor .stopOp).link = Callback.set_offline ∧
     (chainFor .resizeOp).link = Callback.set_resized ∧
     (∀ op, (chainFor op).link_error = Callback.set_erred)) ∧
    (∀ (op : LifecycleOp) (b : BackendEnv) (w : TaskWorld) (s1 : DropletState)
        (actionId : Nat),
      beginTransitionFor (chainFor op).op w.state = some s1 →
      b.beginResult = .ok actionId →
      wait_for_action_complete (b.actionStatus actionId) = PollResult.success →
      (runChain (chainFor op) b w).2 =
        [.backendCalled op, .alertClosed, .pollFinished .success,
         .callbackFired (chainFor op).link] ∧
      (runChain (chainFor op) b w).1.state = successState op) ∧
    (∀ (op : LifecycleOp) (b : BackendEnv) (w : TaskWorld) (s1 : DropletState)
        (actionId : Nat),
      beginTransitionFor (chainFor op).op w.state = some s1 →
      b.beginResult = .ok actionId →
      wait_for_action_complete (b.actionStatus actionId) = PollResult.fatal →
      (runChain (chainFor op) b w).2 =
        [.backendCalled op, .alertClosed, .pollFinished .fatal,
         .callbackFired .set_erred] ∧
      (runChain (chainFor op) b w).1.state = .erred) := by
  refine ⟨by decide, ?_, ?_⟩
  · intro op b w s1 actionId hg hr hp
    have hs1 : s1 = inProgressState op := by
      have := beginTransitionFor_some op w.state s1
      rw [chainFor_op] at hg
      exact this hg
    subst hs1
    have hgc : beginTransitionFor (chainFor op).op w.state = some (inProgressState op) := by
      rw [chainFor_op]
      rw [chainFor_op] at hg
      exact hg
    rw [runChain_poll_success _ b w _ (successState op) actionId hgc hr hp
      (applyCallback_link_inProgress op)]
    rw [chainFor_op]
    exact ⟨rfl, rfl⟩
  · intro op b w s1 actionId hg hr hp
    rw [runChain_poll_fatal _ b w s1 actionId hg hr hp (chainFor_link_error op)]
    rw [chainFor_op]
    exact ⟨rfl, rfl⟩

/-- Witness for claim C6: a start chain whose poll completes commits online. -/
theorem C6_chain_order_and_linking_witness :
    (runChain (chainFor .startOp) envOk ⟨.offline, true⟩).2 =
      [.backendCalled .startOp, .alertClosed, .pollFinished .success,
       .callbackFired (chainFor .startOp).link] ∧
    (runChain (chainFor .startOp) envOk ⟨.offline, true⟩).1.state =
      successState .startOp :=
  C6_chain_order_and_linking.2.1 .startOp envOk ⟨.offline, true⟩ .starting 7 rfl rfl rfl

/-- Claim C3: vendor errors are classified three ways by text message, access
denial becoming TokenScopeError, missing resource becoming NotFoundError and
anything else DigitalOceanBackendError; a TokenScopeError from a droplet task
aborts with the alert opened and no polling; a NotFoundError in remove_ssh_key
succeeds without action; and polling retries stay within the attempt budget. -/
theorem C3_error_taxonomy :
    (digitalocean_error_handler ⟨accessDeniedMessage⟩ =
      .tokenScopeError accessDeniedMessage) ∧
    (digitalocean_error_handler ⟨notFoundMessage⟩ = .notFoundError notFoundMessage) ∧
    (∀ m, m ≠ accessDeniedMessage → m ≠ notFoundMessage →
      digitalocean_error_handler ⟨m⟩ = .digitalOceanBackendError m) ∧
    (∀ (m : String) (dr : Except DataReadError Unit),
      remove_ssh_key (.error (.notFoundError m)) dr = .ok false) ∧
    (∀ (op : LifecycleOp) (b : BackendEnv) (w : TaskWorld) (s1 : DropletState)
        (m : String),
      beginTransitionFor (chainFor op).op w.state = some s1 →
      b.beginResult = .error (.tokenScopeError m) →
      (runChain (chainFor op) b w).2 =
        [.backendCalled op, .alertOpened, .callbackFired .set_erred] ∧
      (runChain (chainFor op) b w).1.alertOpen = true) ∧
    (∀ check, pollAttempts check ≤ max_retries + 1) := by
  refine ⟨by decide, by decide, ?_, ?_, ?_, ?_⟩
  · intro m h1 h2
    simp [digitalocean_error_handler, h1, h2]
  · intro m dr
    rfl
  · intro op b w s1 m hg hr
    rw [runChain_token_scope _ b w s1 m hg hr (chainFor_link_error op)]
    rw [chainFor_op]
    exact ⟨rfl, rfl⟩
  · intro check
    exact pollAttemptsFrom_le check (max_retries + 1) 0

/-- Witness for claim C3: a token scope error on start opens the alert and
aborts without polling. -/
theorem C3_error_taxonomy_witness :
    (runChain (chainFor .startOp) envTokenScope ⟨.offline, false⟩).2 =
      [.backendCalled .startOp, .alertOpened, .callbackFired .set_erred] ∧
    (runChain (chainFor .startOp) envTokenScope ⟨.offline, false⟩).1.alertOpen = true :=
  C3_error_taxonomy.2.2.2.2.1 .startOp envTokenScope ⟨.offline, false⟩ .starting
    accessDeniedMessage rfl rfl

/-- Claim C8: after pull_droplets, a tracked droplet of this service settings
whose backend id is absent from the vendor list is marked erred, and one
present on both sides gets the vendor-to-platform mapping: new to
(CREATING, provisioning), active to (OK, online), off to (OK, offline),
archive to (OK, archive), anything else to (ERRED, error). -/
theorem C8_pull_droplets (sid : Nat) (bds : List BackendDroplet) (ncs : List NCDroplet)
    (d : NCDroplet) (hmem : d ∈ ncs) (hsid : d.settingsId = sid) :
    (updateDroplet sid bds d ∈ pull_droplets sid bds ncs) ∧
    ((∀ b ∈ bds, b.id ≠ d.backend_id) →
      (updateDroplet sid bds d).state = .ERRED ∧
      (updateDroplet sid bds d).backend_id = d.backend_id) ∧
    (∀ b, bds.find? (fun x => x.id == d.backend_id) = some b →
      updateDroplet sid bds d =
        { d with state := (_get_droplet_states b.status).1,
                 runtime_state := (_get_droplet_states b.status).2 }) ∧
    ((∃ b ∈ bds, b.id = d.backend_id) →
      ∃ b, bds.find? (fun x => x.id == d.backend_id) = some b ∧
        b.id = d.backend_id) ∧
    (_get_droplet_states "new" = (.CREATING, "provisioning") ∧
     _get_droplet_states "active" = (.OK, "online") ∧
     _get_droplet_states "off" = (.OK, "offline") ∧
     _get_droplet_states "archive" = (.OK, "archive") ∧
     (∀ st, st ≠ "new" → st ≠ "active" → st ≠ "off" → st ≠ "archive" →
       _get_droplet_states st = (.ERRED, "error"))) := by
  refine ⟨List.mem_map_of_mem _ hmem, ?_, ?_, ?_, by decide, by decide, by decide,
    by decide, ?_⟩
  · intro hall
    have hnone : bds.find? (fun x => x.id == d.backend_id) = none := by
      rw [List.find?_eq_none]
      intro b hb
      simp only [beq_iff_eq]
      exact hall b hb
    constructor
    · simp [updateDroplet, hsid, hnone]
    · simp [updateDroplet, hsid, hnone]
  · intro b hb
    simp [updateDroplet, hsid, hb]
  · rintro ⟨b, hb, hid⟩
    have hsome : (bds.find? (fun x => x.id == d.backend_id)).isSome := by
      rw [List.find?_isSome]
      exact ⟨b, hb, by simp [hid]⟩
    rcases Option.isSome_iff_exists.mp hsome with ⟨b', hb'⟩
    refine ⟨b', hb', ?_⟩
    have := List.find?_some hb'
    simpa [beq_iff_eq] using this
  · intro st h1 h2 h3 h4
    simp [_get_droplet_states, h1, h2, h3, h4]

/-- Witness for claim C8 on a one-droplet table matching an active vendor
droplet. -/
theorem C8_pull_droplets_witness :
    updateDroplet 1 [⟨"10", "active"⟩] ⟨"10", 1, .CREATING, "provisioning"⟩ =
      { backend_id := "10", settingsId := 1,
        state := (_get_droplet_states "active").1,
        runtime_state := (_get_droplet_states "active").2 } :=
  (C8_pull_droplets 1 [⟨"10", "active"⟩] [⟨"10", 1, .CREATING, "provisioning"⟩]
    ⟨"10", 1, .CREATING, "provisioning"⟩ (by decide) rfl).2.2.1 ⟨"10", "active"⟩ rfl

/-- Witness for claim C1: a completed report on the second attempt makes the
poller terminate successfully. -/
theorem C1_amended_poll_characterization_witness :
    wait_for_action_complete failThenComplete = PollResult.success :=
  (C1_amended_poll_characterization failThenComplete).1.mpr ⟨1, by decide, rfl⟩

/-- Witness for claim C2 on a concrete successful start chain. -/
theorem C2_exactly_one_callback_witness :
    (firedCallbacks (runChain (chainFor .startOp) envOk ⟨.offline, true⟩).2 =
       [Callback.set_erred] ∧
     (runChain (chainFor .startOp) envOk ⟨.offline, true⟩).1.state = .erred) ∨
    (firedCallbacks (runChain (chainFor .startOp) envOk ⟨.offline, true⟩).2 =
       [(chainFor .startOp).link] ∧
     (runChain (chainFor .startOp) envOk ⟨.offline, true⟩).1.state =
       successState .startOp) :=
  C2_exactly_one_callback .startOp envOk ⟨.offline, true⟩
